import Mathlib

/-!
Shallow embedding of the `emscripten-component-base` adapter layer
(`manager.js`, the base `Manager` class, and `manager-module.js`, the
`ModuleManager` subclass).

The adapter merges a caller-supplied option record with documented
defaults, instantiates an Emscripten module, and monkey-patches the
module's canvas lookup, keyboard/resize/fullscreen event handlers and
GL viewport function.  Machine numbers that matter here (device pixel
ratio, canvas dimensions) are modelled as rationals and integers;
fallible JavaScript calls are modelled as `Except String`.
-/

/-! ### Options (manager.js, `__setOptions` / `__getDefaultOptionsForVersion`) -/

/-- The caller-supplied user-options record.  Each boolean toggle is
`Option Bool`: `none` means the key is absent from the record. -/
structure UserOptions where
  redirectCanvasRequests : Option Bool
  captureFocusOnComponent : Option Bool
  captureTabKey : Option Bool
  resizeCanvasOnElementSizing : Option Bool
  resizeCanvasOnFullscreenChange : Option Bool
  adjustViewportByDevicePixelRatio : Option Bool
  disposeCanvasOnAbort : Option Bool
  emsdkVersion : Option String
deriving DecidableEq

/-- The merged option record stored in `this.__options`. -/
structure ManagerOptions where
  redirectCanvasRequests : Bool
  captureFocusOnComponent : Bool
  captureTabKey : Bool
  resizeCanvasOnElementSizing : Bool
  resizeCanvasOnFullscreenChange : Bool
  adjustViewportByDevicePixelRatio : Bool
  disposeCanvasOnAbort : Bool
deriving DecidableEq

/-- The literal `defaultOptions` object of `__getDefaultOptionsForVersion`. -/
def Manager.defaultOptions : ManagerOptions :=
  { redirectCanvasRequests := true
    captureFocusOnComponent := true
    captureTabKey := false
    resizeCanvasOnElementSizing := true
    resizeCanvasOnFullscreenChange := true
    adjustViewportByDevicePixelRatio := true
    disposeCanvasOnAbort := true }

/-- `Manager.__getDefaultOptionsForVersion`: returns `defaultOptions` when no
`emsdkVersion` is given, and the `switch` over `emsdkVersion` currently hits
only its `default` case, which also returns `defaultOptions`. -/
def Manager.getDefaultOptionsForVersion (u : UserOptions) : ManagerOptions :=
  match u.emsdkVersion with
  | none => Manager.defaultOptions
  | some _ => Manager.defaultOptions

/-- `Manager.__setOptions`: the object-spread merge
`{...defaults, ...userOptions}` — a key present in the user record
overrides the default, an absent key keeps the default. -/
def Manager.setOptions (u : UserOptions) : ManagerOptions :=
  let d := Manager.getDefaultOptionsForVersion u
  { redirectCanvasRequests := u.redirectCanvasRequests.getD d.redirectCanvasRequests
    captureFocusOnComponent := u.captureFocusOnComponent.getD d.captureFocusOnComponent
    captureTabKey := u.captureTabKey.getD d.captureTabKey
    resizeCanvasOnElementSizing := u.resizeCanvasOnElementSizing.getD d.resizeCanvasOnElementSizing
    resizeCanvasOnFullscreenChange := u.resizeCanvasOnFullscreenChange.getD d.resizeCanvasOnFullscreenChange
    adjustViewportByDevicePixelRatio := u.adjustViewportByDevicePixelRatio.getD d.adjustViewportByDevicePixelRatio
    disposeCanvasOnAbort := u.disposeCanvasOnAbort.getD d.disposeCanvasOnAbort }

/-! ### GL viewport patch (manager-module.js, `_patchGlViewport`) -/

/-- The `patchedViewport` closure installed by `ModuleManager._patchGlViewport`
on every created rendering context.  It returns the four arguments with which
the predefined (underlying) `viewport` function is invoked.  `dpr` is
`window.devicePixelRatio`; `canvasWidth`/`canvasHeight` are the backing-store
dimensions `gl.canvas.width` / `gl.canvas.height`. -/
def ModuleManager.patchedViewport (dpr : ℚ) (canvasWidth canvasHeight : ℤ)
    (x0 y0 w0 h0 : ℚ) : ℚ × ℚ × ℚ × ℚ :=
  if dpr ≠ 1 then
    let w : ℤ := ⌊w0 * dpr⌋
    let h : ℤ := ⌊h0 * dpr⌋
    let roundingError : ℤ := 1
    if (canvasWidth ≤ w ∧ w ≤ roundingError + canvasWidth)
        ∧ (canvasHeight ≤ h ∧ h ≤ roundingError + canvasHeight) then
      (x0, y0, (canvasWidth : ℚ), (canvasHeight : ℚ))
    else
      (x0, y0, w0, h0)
  else
    (x0, y0, w0, h0)

/-- The spec's reading of the viewport rule, written from its words: if the
device pixel ratio is not 1 and each scaled dimension is within one pixel of
the corresponding backing-store dimension, the underlying viewport function
receives exactly the backing-store dimensions. -/
def specViewportSnaps (dpr : ℚ) (canvasWidth canvasHeight : ℤ)
    (x0 y0 w0 h0 : ℚ) : Prop :=
  dpr ≠ 1 →
  |⌊w0 * dpr⌋ - canvasWidth| ≤ 1 →
  |⌊h0 * dpr⌋ - canvasHeight| ≤ 1 →
  ModuleManager.patchedViewport dpr canvasWidth canvasHeight x0 y0 w0 h0
    = (x0, y0, (canvasWidth : ℚ), (canvasHeight : ℚ))

/-- Claim C1: the merged configuration maps every option key present in the
user record to the caller-supplied value, and every absent key to its
documented default (`redirectCanvasRequests = true`,
`captureFocusOnComponent = true`, `captureTabKey = false`,
`resizeCanvasOnElementSizing = true`, `resizeCanvasOnFullscreenChange = true`,
`adjustViewportByDevicePixelRatio = true`, `disposeCanvasOnAbort = true`). -/
theorem C1_option_merge (u : UserOptions) :
    (Manager.setOptions u).redirectCanvasRequests = u.redirectCanvasRequests.getD true
    ∧ (Manager.setOptions u).captureFocusOnComponent = u.captureFocusOnComponent.getD true
    ∧ (Manager.setOptions u).captureTabKey = u.captureTabKey.getD false
    ∧ (Manager.setOptions u).resizeCanvasOnElementSizing = u.resizeCanvasOnElementSizing.getD true
    ∧ (Manager.setOptions u).resizeCanvasOnFullscreenChange = u.resizeCanvasOnFullscreenChange.getD true
    ∧ (Manager.setOptions u).adjustViewportByDevicePixelRatio = u.adjustViewportByDevicePixelRatio.getD true
    ∧ (Manager.setOptions u).disposeCanvasOnAbort = u.disposeCanvasOnAbort.getD true := by
  cases h : u.emsdkVersion <;>
    simp [Manager.setOptions, Manager.getDefaultOptionsForVersion, Manager.defaultOptions, h]

/-- Claim C2, counterexample: the claim reads "within one pixel of the
backing-store size", but the code snaps only when the scaled dimension is at
least the backing-store size.  With `dpr = 2`, a 10×10 backing store and
requested dimensions `9/2`, the scaled dimension `⌊(9/2)·2⌋ = 9` is within one
pixel of 10, yet the patched viewport passes `9/2` through instead of
snapping to 10. -/
theorem C2_viewport_counterexample : ¬ specViewportSnaps 2 10 10 0 0 (9/2) (9/2) := by
  intro hspec
  have h := hspec (by norm_num) (by norm_num) (by norm_num)
  have h2 : ModuleManager.patchedViewport 2 10 10 0 0 (9/2) (9/2) = (0, 0, 9/2, 9/2) := by
    unfold ModuleManager.patchedViewport
    rw [if_pos (by norm_num), if_neg (by norm_num)]
  rw [h2] at h
  have h3 := congrArg (fun p => p.2.2.1) h
  norm_num at h3

/-- Claim C2, amended: when the device pixel ratio is not 1 and each scaled
dimension `⌊w0·dpr⌋`, `⌊h0·dpr⌋` is at least the corresponding backing-store
dimension and at most one pixel above it, the underlying viewport function is
invoked with exactly the backing-store dimensions; otherwise the requested
`w0` and `h0` are passed through unchanged (and `x0`, `y0` always pass through
unchanged). -/
theorem C2_viewport_amended (dpr : ℚ) (cw ch : ℤ) (x0 y0 w0 h0 : ℚ) :
    (dpr ≠ 1 → cw ≤ ⌊w0 * dpr⌋ → ⌊w0 * dpr⌋ ≤ 1 + cw →
      ch ≤ ⌊h0 * dpr⌋ → ⌊h0 * dpr⌋ ≤ 1 + ch →
      ModuleManager.patchedViewport dpr cw ch x0 y0 w0 h0 = (x0, y0, (cw : ℚ), (ch : ℚ)))
    ∧ ((dpr = 1 ∨ ⌊w0 * dpr⌋ < cw ∨ 1 + cw < ⌊w0 * dpr⌋
          ∨ ⌊h0 * dpr⌋ < ch ∨ 1 + ch < ⌊h0 * dpr⌋) →
      ModuleManager.patchedViewport dpr cw ch x0 y0 w0 h0 = (x0, y0, w0, h0)) := by
  unfold ModuleManager.patchedViewport
  constructor
  · intro h1 h2 h3 h4 h5
    rw [if_pos h1, if_pos ⟨⟨h2, h3⟩, h4, h5⟩]
  · intro h
    by_cases hd : dpr ≠ 1
    · rw [if_pos hd, if_neg]
      rcases h with h | h | h | h | h
      · exact absurd h hd
      all_goals intro hc; omega
    · rw [if_neg hd]

/-- Witness for C2's amended theorem at `dpr = 2`, a 10×10 backing store and
requested dimensions 5×5 (scaled: exactly 10×10, so the snap fires). -/
theorem C2_viewport_amended_witness :
    ModuleManager.patchedViewport 2 10 10 0 0 5 5 = (0, 0, ((10 : ℤ) : ℚ), ((10 : ℤ) : ℚ)) :=
  (C2_viewport_amended 2 10 10 0 0 5 5).1 (by norm_num) (by norm_num)
    (by norm_num) (by norm_num) (by norm_num)

/-! ### Base contract methods (manager.js, class `Manager`) -/

/-- `Manager.initialize` unoverridden: `throw new Error(...)`. -/
def Manager.baseInit : Except String Unit :=
  .error "Manager::initialize() not implemented by the subclass."

/-- `Manager.callMain` unoverridden. -/
def Manager.baseCallMain : Except String Unit :=
  .error "Manager::callMain() not implemented by the subclass."

/-- `Manager.abort` unoverridden. -/
def Manager.baseAbort : Except String Unit :=
  .error "Manager::abort() not implemented by the subclass."

/-- `Manager.pauseMainLoop` unoverridden. -/
def Manager.basePauseMainLoop : Except String Unit :=
  .error "Manager::pauseMainLoop() not implemented by the subclass."

/-- `Manager.resumeMainLoop` unoverridden. -/
def Manager.baseResumeMainLoop : Except String Unit :=
  .error "Manager::resumeMainLoop() not implemented by the subclass."

/-- `Manager.requestFullscreen` unoverridden. -/
def Manager.baseRequestFullscreen : Except String Unit :=
  .error "Manager::requestFullscreen() not implemented by the subclass."

/-- `Manager.exitFullscreen` unoverridden. -/
def Manager.baseExitFullscreen : Except String Unit :=
  .error "Manager::exitFullscreen() not implemented by the subclass."

/-- `Manager.onResizeCanvas` unoverridden. -/
def Manager.baseOnResizeCanvas : Except String Unit :=
  .error "Manager::onResizeCanvas() not implemented by the subclass."

/-- `Manager._initializeModule` unoverridden. -/
def Manager.baseInitModule : Except String Unit :=
  .error "Manager::_initializeModule() not implemented by the subclass."

/-- `Manager._patchModule` unoverridden (note: its message says "by subclass",
without "the", as in the source). -/
def Manager.basePatchModule : Except String Unit :=
  .error "Manager::_patchModule() not implemented by subclass."

/-- The base class's contract methods — the methods a subclass is expected to
override — paired with the result of invoking each without overriding. -/
def Manager.contractMethods : List (String × Except String Unit) :=
  [("initialize", Manager.baseInit),
   ("callMain", Manager.baseCallMain),
   ("abort", Manager.baseAbort),
   ("pauseMainLoop", Manager.basePauseMainLoop),
   ("resumeMainLoop", Manager.baseResumeMainLoop),
   ("requestFullscreen", Manager.baseRequestFullscreen),
   ("exitFullscreen", Manager.baseExitFullscreen),
   ("onResizeCanvas", Manager.baseOnResizeCanvas),
   ("_initializeModule", Manager.baseInitModule),
   ("_patchModule", Manager.basePatchModule)]

/-- Whether invoking a method body yields a thrown error. -/
def throwsUnimplemented : Except String Unit → Bool
  | .error _ => true
  | .ok _ => false

/-- The number of base contract methods whose unoverridden invocation throws
an unimplemented-method error. -/
def Manager.unimplementedContractMethodCount : Nat :=
  (Manager.contractMethods.filter (fun m => throwsUnimplemented m.2)).length

/-- Claim C3, counterexample: the base `Manager` class has ten contract
methods that raise an unimplemented-method error when invoked unoverridden,
not exactly three. -/
theorem C3_contract_count_counterexample :
    Manager.unimplementedContractMethodCount = 10
    ∧ ¬ Manager.unimplementedContractMethodCount = 3 := by
  constructor <;> decide

/-- Claim C3, amended: exactly ten of the base `Manager` class's contract
methods (the eight public operations plus `_initializeModule` and
`_patchModule`) raise an unimplemented-method error when invoked without
being overridden, and every such invocation throws. -/
theorem C3_contract_count_amended :
    Manager.unimplementedContractMethodCount = 10
    ∧ Manager.contractMethods.all (fun m => throwsUnimplemented m.2) = true := by
  constructor <;> decide

/-! ### Exposed operations of `ModuleManager` (manager-module.js, lines 21-69)

Each operation is modelled by the list of external calls it performs, in
order.  Calls on `this._moduleInstance` are distinguished from calls on the
canvas element or the window. -/

/-- A DOM event target, compared by reference identity as JavaScript's
`===` does; distinct elements get distinct ids. -/
inductive EventTarget
  | window
  | document
  | element (id : Nat)
deriving DecidableEq

/-- An external call made by an adapter operation. -/
inductive AdapterCall
  | moduleCallMain (args : List String)
  | moduleAbort (what : String)
  | modulePauseMainLoop
  | moduleResumeMainLoop
  | moduleFactoryInvoke
  | patchModuleApplied
  | canvasRequestFullscreen
  | canvasExitFullscreen
  | windowDispatchResize (relatedTarget : EventTarget)
deriving DecidableEq

/-- Whether a call is to an entry point of the wrapped module instance. -/
def AdapterCall.isModuleEntryPoint : AdapterCall → Bool
  | .moduleCallMain _ => true
  | .moduleAbort _ => true
  | .modulePauseMainLoop => true
  | .moduleResumeMainLoop => true
  | _ => false

/-- `ModuleManager.callMain(args)`: `this._moduleInstance.callMain(args)`. -/
def ModuleManager.callMainTrace (args : List String) : List AdapterCall :=
  [.moduleCallMain args]

/-- `ModuleManager.abort(what)`: attempts `this._moduleInstance.abort(what)`
with the default argument resolved; the try/catch does not change which call
is attempted. -/
def ModuleManager.abortTrace (what : Option String) : List AdapterCall :=
  [.moduleAbort (what.getD "Aborted by JS component.")]

/-- `ModuleManager.pauseMainLoop()`. -/
def ModuleManager.pauseMainLoopTrace : List AdapterCall :=
  [.modulePauseMainLoop]

/-- `ModuleManager.resumeMainLoop()`. -/
def ModuleManager.resumeMainLoopTrace : List AdapterCall :=
  [.moduleResumeMainLoop]

/-- `ModuleManager.requestFullscreen()`: calls
`this.__canvasElement.requestFullscreen()` — a DOM call on the canvas
element, not a wrapped-module entry point. -/
def ModuleManager.requestFullscreenTrace : List AdapterCall :=
  [.canvasRequestFullscreen]

/-- `ModuleManager.exitFullscreen()`: calls
`this.__canvasElement.exitFullscreen()`. -/
def ModuleManager.exitFullscreenTrace : List AdapterCall :=
  [.canvasExitFullscreen]

/-- `ModuleManager.onResizeCanvas(...)`: when `resizeCanvasOnElementSizing`
is set it calls `_handleResizeCanvas`, which dispatches a synthetic `resize`
`FocusEvent` on the window with `relatedTarget` set to the resized element;
otherwise it does nothing. -/
def ModuleManager.onResizeCanvasTrace (opts : ManagerOptions)
    (resizeTarget : EventTarget) : List AdapterCall :=
  if opts.resizeCanvasOnElementSizing then [.windowDispatchResize resizeTarget] else []

/-- `ModuleManager.initialize`: constructs the manager, then
`_initializeModule` awaits the module factory and applies `_patchModule`. -/
def ModuleManager.initTrace : List AdapterCall :=
  [.moduleFactoryInvoke, .patchModuleApplied]

/-- Written from the spec's words: an operation is a "direct forward to the
wrapped module's corresponding entry point" when its trace is exactly one
call and that call is to a wrapped-module entry point. -/
def specDirectModuleForward (trace : List AdapterCall) : Bool :=
  match trace with
  | [c] => c.isModuleEntryPoint
  | _ => false

/-- Claim C4, counterexample: `requestFullscreen` performs exactly one call,
to the canvas element's `requestFullscreen` — not to any wrapped-module entry
point — and `onResizeCanvas` with `resizeCanvasOnElementSizing` unset
performs no call at all; so not every exposed operation is a direct forward
to the wrapped module. -/
theorem C4_forwarding_counterexample :
    ModuleManager.requestFullscreenTrace = [AdapterCall.canvasRequestFullscreen]
    ∧ specDirectModuleForward ModuleManager.requestFullscreenTrace = false
    ∧ ModuleManager.onResizeCanvasTrace
        { Manager.defaultOptions with resizeCanvasOnElementSizing := false }
        (EventTarget.element 0) = []
    ∧ specDirectModuleForward
        (ModuleManager.onResizeCanvasTrace
          { Manager.defaultOptions with resizeCanvasOnElementSizing := false }
          (EventTarget.element 0)) = false := by
  refine ⟨rfl, rfl, ?_, ?_⟩ <;> decide

/-- Claim C4, amended: `callMain`, `abort`, `pauseMainLoop` and
`resumeMainLoop` are direct forwards to the wrapped module's corresponding
entry points for every argument list (`abort` inside an exception-swallowing
try); `requestFullscreen` and `exitFullscreen` forward to the canvas
element's fullscreen methods instead; `onResizeCanvas` dispatches a synthetic
window resize event tied to the resized element only when
`resizeCanvasOnElementSizing` is set; and `initialize` invokes the module
factory and then applies the patches rather than forwarding. -/
theorem C4_forwarding_amended (args : List String) (what : Option String)
    (opts : ManagerOptions) (t : EventTarget) :
    specDirectModuleForward (ModuleManager.callMainTrace args) = true
    ∧ ModuleManager.callMainTrace args = [AdapterCall.moduleCallMain args]
    ∧ specDirectModuleForward (ModuleManager.abortTrace what) = true
    ∧ ModuleManager.abortTrace what
        = [AdapterCall.moduleAbort (what.getD "Aborted by JS component.")]
    ∧ specDirectModuleForward ModuleManager.pauseMainLoopTrace = true
    ∧ ModuleManager.pauseMainLoopTrace = [AdapterCall.modulePauseMainLoop]
    ∧ specDirectModuleForward ModuleManager.resumeMainLoopTrace = true
    ∧ ModuleManager.resumeMainLoopTrace = [AdapterCall.moduleResumeMainLoop]
    ∧ ModuleManager.requestFullscreenTrace = [AdapterCall.canvasRequestFullscreen]
    ∧ specDirectModuleForward ModuleManager.requestFullscreenTrace = false
    ∧ ModuleManager.exitFullscreenTrace = [AdapterCall.canvasExitFullscreen]
    ∧ specDirectModuleForward ModuleManager.exitFullscreenTrace = false
    ∧ ModuleManager.onResizeCanvasTrace opts t
        = (if opts.resizeCanvasOnElementSizing then
            [AdapterCall.windowDispatchResize t] else [])
    ∧ ModuleManager.initTrace
        = [AdapterCall.moduleFactoryInvoke, AdapterCall.patchModuleApplied]
    ∧ specDirectModuleForward ModuleManager.initTrace = false := by
  refine ⟨rfl, rfl, rfl, rfl, rfl, rfl, rfl, rfl, rfl, rfl, rfl, rfl, rfl, rfl, rfl⟩

/-! ### `ModuleManager.abort` exception behavior (manager-module.js, 41-47) -/

/-- JavaScript try/catch over a fallible computation. -/
def tryCatchE (body : Except String α) (handler : String → Except String α) :
    Except String α :=
  match body with
  | .ok a => .ok a
  | .error e => handler e

/-- `ModuleManager.abort(what = 'Aborted by JS component.')`.
`moduleAbort` is the wrapped module's `abort` entry point, `none` when
`this._moduleInstance` is absent (the property access on `undefined` then
throws a `TypeError`, still inside the `try`).  The `catch` swallows any
thrown error. -/
def ModuleManager.abortOp (moduleAbort : Option (String → Except String Unit))
    (what : Option String) : Except String Unit :=
  tryCatchE
    (match moduleAbort with
     | none => .error "TypeError: Cannot read properties of undefined (reading abort)"
     | some f => f (what.getD "Aborted by JS component."))
    (fun _ => .ok ())

/-- Claim C5: `ModuleManager.abort` never propagates an exception — for every
argument and every behavior of the wrapped module's `abort` entry point,
including throwing and the absent-instance case, the call returns normally. -/
theorem C5_abort_never_throws
    (moduleAbort : Option (String → Except String Unit)) (what : Option String) :
    ModuleManager.abortOp moduleAbort what = .ok () := by
  cases moduleAbort with
  | none => rfl
  | some f =>
    cases h : f (what.getD "Aborted by JS component.") <;>
      simp [ModuleManager.abortOp, tryCatchE, h]

/-! ### GL context disposal on abort (manager.js, `__disposeGlContexts`) -/

/-- The `WEBGL_lose_context` extension object; invoking `loseContext()` may
throw. -/
structure LoseContextExt where
  loseContextResult : Except String Unit

/-- The raw rendering context stored at `GL.contexts[key].GLctx`; querying
`getExtension('WEBGL_lose_context')` may throw, return the extension, or
return null. -/
structure GLctxRec where
  getLoseContextExt : Except String (Option LoseContextExt)

/-- The wrapped module's `GL` table: its `contexts` table — `none` entries are
the stale `null` slots emscripten leaves behind — and the behavior of
`GL.deleteContext` on each key. -/
structure GLTable where
  contexts : List (String × Option GLctxRec)
  deleteContextResult : String → Except String Unit

/-- The body of the `forEach` callback in `__disposeGlContexts` for one key:
read `GL.contexts[key].GLctx` (throws a `TypeError` on a stale null entry),
query the lose-context extension, invoke it when present, then
`GL.deleteContext(key)`. -/
def Manager.disposeOne (g : GLTable) (key : String) (entry : Option GLctxRec) :
    Except String Unit := do
  let r ← match entry with
    | none => throw "TypeError: Cannot read properties of null (reading GLctx)"
    | some r => pure r
  let ext ← r.getLoseContextExt
  (match ext with
   | some e => e.loseContextResult
   | none => pure ())
  g.deleteContextResult key

/-- The `forEach` loop over `Object.keys(module.GL.contexts)`: each
iteration's body runs inside its own try/catch; the returned list is the keys
visited, in order.  An uncaught error would abort the iteration. -/
def Manager.disposeLoop (g : GLTable) :
    List (String × Option GLctxRec) → Except String (List String)
  | [] => .ok []
  | (key, entry) :: rest =>
    match tryCatchE (Manager.disposeOne g key entry) (fun _ => .ok ()) with
    | .ok _ => (Manager.disposeLoop g rest).map (fun visited => key :: visited)
    | .error e => .error e

/-- `Manager.__disposeGlContexts(module)`: returns immediately when
`module.GL` is absent, otherwise iterates over the contexts table. -/
def Manager.disposeGlContexts (gl : Option GLTable) : Except String (List String) :=
  match gl with
  | none => .ok []
  | some g => Manager.disposeLoop g g.contexts

/-- Each iteration of the disposal loop succeeds: the per-context try/catch
turns any failure into success, so the loop visits every key in order. -/
theorem Manager.disposeLoop_visits_all (g : GLTable)
    (l : List (String × Option GLctxRec)) :
    Manager.disposeLoop g l = .ok (l.map Prod.fst) := by
  induction l with
  | nil => rfl
  | cons hd tl ih =>
    obtain ⟨key, entry⟩ := hd
    have hcaught : tryCatchE (Manager.disposeOne g key entry) (fun _ => .ok ())
        = Except.ok () := by
      cases h : Manager.disposeOne g key entry <;> simp [tryCatchE, h]
    simp [Manager.disposeLoop, hcaught, ih, Except.map]

/-- Claim C6: `__disposeGlContexts` never propagates an exception — for every
contexts table, including tables holding stale null entries and contexts
whose extension lookup, `loseContext` or `deleteContext` throws — and the
disposal loop still visits every context, in order. -/
theorem C6_dispose_swallows_and_visits_all (g : GLTable) :
    Manager.disposeGlContexts (some g) = .ok (g.contexts.map Prod.fst)
    ∧ Manager.disposeGlContexts none = .ok [] :=
  ⟨Manager.disposeLoop_visits_all g g.contexts, rfl⟩

/-! ### Event-handler patching (manager-module.js, lines 153-306)

The module registers an event handler record (`target`, `eventTypeString`,
`handlerFunc`) through `JSEvents.registerOrRemoveHandler`.  The adapter wraps
that registration; the three patch functions mutate the record in place and
report whether they matched.  Handler functions are modelled syntactically —
`original` is the module's own (opaque) handler, the other constructors are
the wrapper closures the patches install — and `HandlerFunc.run` gives the
observable calls a handler function makes when invoked on an event. -/

/-- JavaScript's `String.prototype.startsWith`, modelled on the character
list (kernel-reducible, unlike `String.startsWith`). -/
def jsStartsWith (s p : String) : Bool := p.data.isPrefixOf s.data

/-- JavaScript's `String.prototype.endsWith`. -/
def jsEndsWith (s p : String) : Bool := p.data.isSuffixOf s.data

/-- A DOM event as observed by the patched handlers: emscripten key events
carry `keyCode`; the adapter's synthetic resize event carries
`relatedTarget`; fullscreen-change events carry `target`/`srcElement`. -/
structure JEvent where
  keyCode : Int
  relatedTarget : Option EventTarget
  target : Option EventTarget
  srcElement : Option EventTarget
deriving DecidableEq

/-- Handler functions, syntactically: the module's registered handler and the
three wrapper closures installed by the patches. -/
inductive HandlerFunc
  | original
  | tabFiltered (inner : HandlerFunc)
  | resizeWrapped (inner : HandlerFunc)
  | fullscreenWrapped (inner : HandlerFunc)
deriving DecidableEq

/-- The `eventHandler` record passed to `JSEvents.registerOrRemoveHandler`. -/
structure EventHandler where
  target : EventTarget
  eventTypeString : String
  handlerFunc : HandlerFunc
deriving DecidableEq

/-- Ambient browser state read when a handler function runs: the option
record and canvas element captured by the wrapper closures, and
`document.fullscreenElement` at event time. -/
structure HandlerEnv where
  options : ManagerOptions
  canvasElement : EventTarget
  fullscreenElement : Option EventTarget
deriving DecidableEq

/-- Observable calls a handler function makes: invoking the module's original
handler with an event, or the `_fixCanvasSizing` / `_fixCanvasViewport`
fixups. -/
inductive HCall
  | original (evt : JEvent)
  | fixCanvasSizing
  | fixCanvasViewport
deriving DecidableEq

/-- The calls a handler function makes when invoked on an event, in order,
following the three wrapper closures in manager-module.js. -/
def HandlerFunc.run : HandlerFunc → HandlerEnv → JEvent → List HCall
  | .original, _, evt => [.original evt]
  | .tabFiltered f, env, evt =>
    if evt.keyCode ≠ 9 then f.run env evt else []
  | .resizeWrapped f, env, evt =>
    (if env.options.resizeCanvasOnElementSizing then
       (if evt.relatedTarget = some env.canvasElement then f.run env evt else [])
     else f.run env evt)
    ++ (if env.options.resizeCanvasOnFullscreenChange
          ∧ env.fullscreenElement = some env.canvasElement then
          [.fixCanvasSizing, .fixCanvasViewport]
        else if env.options.resizeCanvasOnElementSizing then
          [.fixCanvasViewport]
        else [])
  | .fullscreenWrapped f, env, evt =>
    f.run env evt
    ++ (if env.fullscreenElement = none
          ∧ (evt.target = some env.canvasElement ∨ evt.srcElement = some env.canvasElement) then
          [.fixCanvasSizing, .fixCanvasViewport]
        else [])

/-- `ModuleManager._patchKeyEventHandler`: matches handlers on the window
whose event type starts with `key`; redirects the target to the component
when `captureFocusOnComponent` is set, and wraps the handler function to drop
TAB (key code 9) unless `captureTabKey` is set. -/
def ModuleManager.patchKeyEventHandler (opts : ManagerOptions)
    (componentElement : EventTarget) (eh : EventHandler) : Bool × EventHandler :=
  if eh.target ≠ EventTarget.window ∨ ¬ jsStartsWith eh.eventTypeString "key" then
    (false, eh)
  else
    let eh1 := if opts.captureFocusOnComponent then
        { eh with target := componentElement } else eh
    let eh2 := if ¬ opts.captureTabKey then
        { eh1 with handlerFunc := .tabFiltered eh1.handlerFunc } else eh1
    (true, eh2)

/-- `ModuleManager._patchResizeEventHandler`: matches the window `resize`
handler and wraps its handler function. -/
def ModuleManager.patchResizeEventHandler (eh : EventHandler) : Bool × EventHandler :=
  if eh.target ≠ EventTarget.window ∨ eh.eventTypeString ≠ "resize" then
    (false, eh)
  else
    (true, { eh with handlerFunc := .resizeWrapped eh.handlerFunc })

/-- `ModuleManager._patchFullscreenchangedEventHandler`: returns early (a
falsy `undefined`, modelled as `false`) when `resizeCanvasOnFullscreenChange`
is unset; otherwise matches handlers on the document whose event type ends
with `fullscreenchange` and wraps their handler function. -/
def ModuleManager.patchFullscreenchangedEventHandler (opts : ManagerOptions)
    (eh : EventHandler) : Bool × EventHandler :=
  if ¬ opts.resizeCanvasOnFullscreenChange then
    (false, eh)
  else if eh.target ≠ EventTarget.document
      ∨ ¬ jsEndsWith eh.eventTypeString "fullscreenchange" then
    (false, eh)
  else
    (true, { eh with handlerFunc := .fullscreenWrapped eh.handlerFunc })

/-- The wrapper installed over `JSEvents.registerOrRemoveHandler` by
`_patchEventHandlers`: tries the three patches with short-circuit `||`, then
invokes the predefined registration once.  The result is the list of
arguments the predefined registration function is invoked with. -/
def ModuleManager.patchedRegisterOrRemove (opts : ManagerOptions)
    (componentElement : EventTarget) (eh : EventHandler) : List EventHandler :=
  let r1 := ModuleManager.patchKeyEventHandler opts componentElement eh
  let r2 := if r1.1 then r1 else ModuleManager.patchResizeEventHandler r1.2
  let r3 := if r2.1 then r2 else ModuleManager.patchFullscreenchangedEventHandler opts r2.2
  [r3.2]

/-- A handler record of the kind the key patch targets. -/
def matchesKeyKind (eh : EventHandler) : Prop :=
  eh.target = EventTarget.window ∧ jsStartsWith eh.eventTypeString "key" = true

/-- A handler record of the kind the resize patch targets. -/
def matchesResizeKind (eh : EventHandler) : Prop :=
  eh.target = EventTarget.window ∧ eh.eventTypeString = "resize"

/-- A handler record of the kind the fullscreen-change patch targets. -/
def matchesFullscreenKind (eh : EventHandler) : Prop :=
  eh.target = EventTarget.document ∧ jsEndsWith eh.eventTypeString "fullscreenchange" = true

/-- Claim C8: for every keyboard event handler the module registers on the
window (event type starting with `key`), when `captureTabKey` is false the
wrapped handler never invokes the original for key code 9 and invokes it
with the unmodified event for every other key code; when `captureTabKey` is
true the handler function is left unchanged. -/
theorem C8_tab_suppression (opts : ManagerOptions) (component : EventTarget)
    (ts : String) (hts : jsStartsWith ts "key" = true) :
    (ModuleManager.patchKeyEventHandler opts component ⟨.window, ts, .original⟩).1 = true
    ∧ (opts.captureTabKey = false →
        ∀ (env : HandlerEnv) (evt : JEvent),
          HandlerFunc.run
            (ModuleManager.patchKeyEventHandler opts component ⟨.window, ts, .original⟩).2.handlerFunc
            env evt
          = if evt.keyCode = 9 then [] else [HCall.original evt])
    ∧ (opts.captureTabKey = true →
        (ModuleManager.patchKeyEventHandler opts component ⟨.window, ts, .original⟩).2.handlerFunc
          = HandlerFunc.original) := by
  cases hf : opts.captureFocusOnComponent <;> cases htab : opts.captureTabKey <;>
    refine ⟨?_, ?_, ?_⟩ <;>
      simp [ModuleManager.patchKeyEventHandler, hts, hf, htab] <;>
        (intro env evt; by_cases hk : evt.keyCode = 9 <;> simp [HandlerFunc.run, hk])

/-- Witness for C8 at the default options (`captureTabKey = false`), a
`keydown` handler and a TAB event (key code 9): the original handler is not
invoked. -/
theorem C8_tab_suppression_witness :
    HandlerFunc.run
      (ModuleManager.patchKeyEventHandler Manager.defaultOptions (EventTarget.element 1)
        ⟨.window, "keydown", .original⟩).2.handlerFunc
      ⟨Manager.defaultOptions, EventTarget.element 0, none⟩ ⟨9, none, none, none⟩ = [] := by
  have h := (C8_tab_suppression Manager.defaultOptions (EventTarget.element 1)
      "keydown" (by decide)).2.1 rfl
    ⟨Manager.defaultOptions, EventTarget.element 0, none⟩ ⟨9, none, none, none⟩
  simpa using h

/-- Claim C7: the patch matches the module's window `resize` handler; with
`resizeCanvasOnElementSizing` set, the wrapped handler invokes the original
exactly for events whose `relatedTarget` is the caller's canvas element (the
adapter's synthetic event) — never for an ordinary whole-window resize event,
whose `relatedTarget` is absent — and with the toggle unset every resize
event is forwarded; in both cases the original only ever receives the
unchanged event. -/
theorem C7_resize_scoping (opts : ManagerOptions) (canvas : EventTarget)
    (fsElem : Option EventTarget) :
    (ModuleManager.patchResizeEventHandler ⟨.window, "resize", .original⟩).1 = true
    ∧ (opts.resizeCanvasOnElementSizing = true →
        ∀ evt : JEvent,
          (HCall.original evt ∈
            HandlerFunc.run
              (ModuleManager.patchResizeEventHandler ⟨.window, "resize", .original⟩).2.handlerFunc
              ⟨opts, canvas, fsElem⟩ evt)
          ↔ evt.relatedTarget = some canvas)
    ∧ (opts.resizeCanvasOnElementSizing = false →
        ∀ evt : JEvent,
          HCall.original evt ∈
            HandlerFunc.run
              (ModuleManager.patchResizeEventHandler ⟨.window, "resize", .original⟩).2.handlerFunc
              ⟨opts, canvas, fsElem⟩ evt)
    ∧ (∀ evt e' : JEvent,
        HCall.original e' ∈
          HandlerFunc.run
            (ModuleManager.patchResizeEventHandler ⟨.window, "resize", .original⟩).2.handlerFunc
            ⟨opts, canvas, fsElem⟩ evt
        → e' = evt) := by
  have hpf : (ModuleManager.patchResizeEventHandler ⟨.window, "resize", .original⟩).2.handlerFunc
      = HandlerFunc.resizeWrapped .original := by
    simp [ModuleManager.patchResizeEventHandler]
  refine ⟨by simp [ModuleManager.patchResizeEventHandler], ?_, ?_, ?_⟩
  · intro ho evt
    rw [hpf]
    by_cases hr : evt.relatedTarget = some canvas
    · simp [HandlerFunc.run, ho, hr]
    · simp [HandlerFunc.run, ho, hr]
      split_ifs <;> simp
  · intro ho evt
    rw [hpf]
    simp [HandlerFunc.run, ho]
  · intro evt e'
    rw [hpf]
    simp only [HandlerFunc.run]
    intro hmem
    rcases List.mem_append.mp hmem with hm | hm
    · split_ifs at hm <;> simp_all
    · split_ifs at hm <;> simp_all

/-- Witness for C7 at the default options (`resizeCanvasOnElementSizing`
set): the synthetic event whose `relatedTarget` is the canvas element does
reach the original handler. -/
theorem C7_resize_scoping_witness :
    HCall.original ⟨0, some (EventTarget.element 0), none, none⟩ ∈
      HandlerFunc.run
        (ModuleManager.patchResizeEventHandler ⟨.window, "resize", .original⟩).2.handlerFunc
        ⟨Manager.defaultOptions, EventTarget.element 0, none⟩
        ⟨0, some (EventTarget.element 0), none, none⟩ :=
  ((C7_resize_scoping Manager.defaultOptions (EventTarget.element 0) none).2.1 rfl
    ⟨0, some (EventTarget.element 0), none, none⟩).mpr rfl

/-- Claim C10: the patched `JSEvents.registerOrRemoveHandler` invokes the
original registration exactly once per call, with the possibly mutated
handler record; a record matching none of the three patched kinds is passed
to the original registration completely unmodified. -/
theorem C10_register_wrapper (opts : ManagerOptions) (component : EventTarget)
    (eh : EventHandler) :
    (ModuleManager.patchedRegisterOrRemove opts component eh).length = 1
    ∧ (¬ matchesKeyKind eh → ¬ matchesResizeKind eh → ¬ matchesFullscreenKind eh →
        ModuleManager.patchedRegisterOrRemove opts component eh = [eh]) := by
  constructor
  · rfl
  · intro hk hr hf
    have hk' : eh.target ≠ EventTarget.window ∨ ¬ jsStartsWith eh.eventTypeString "key" = true := by
      by_cases h1 : eh.target = EventTarget.window
      · exact Or.inr fun h2 => hk ⟨h1, h2⟩
      · exact Or.inl h1
    have hr' : eh.target ≠ EventTarget.window ∨ eh.eventTypeString ≠ "resize" := by
      by_cases h1 : eh.target = EventTarget.window
      · exact Or.inr fun h2 => hr ⟨h1, h2⟩
      · exact Or.inl h1
    have hf' : eh.target ≠ EventTarget.document
        ∨ ¬ jsEndsWith eh.eventTypeString "fullscreenchange" = true := by
      by_cases h1 : eh.target = EventTarget.document
      · exact Or.inr fun h2 => hf ⟨h1, h2⟩
      · exact Or.inl h1
    have e1 : ModuleManager.patchKeyEventHandler opts component eh = (false, eh) := by
      unfold ModuleManager.patchKeyEventHandler
      rw [if_pos (by simpa using hk')]
    have e2 : ModuleManager.patchResizeEventHandler eh = (false, eh) := by
      unfold ModuleManager.patchResizeEventHandler
      rw [if_pos hr']
    have e3 : ModuleManager.patchFullscreenchangedEventHandler opts eh = (false, eh) := by
      unfold ModuleManager.patchFullscreenchangedEventHandler
      by_cases ht : opts.resizeCanvasOnFullscreenChange = true
      · rw [if_neg (by simp [ht]), if_pos (by simpa using hf')]
      · rw [if_pos (by simp [Bool.not_eq_true] at ht ⊢; exact ht)]
    simp [ModuleManager.patchedRegisterOrRemove, e1, e2, e3]

/-- Witness for C10 at a `click` handler on an ordinary element — none of the
three patched kinds — which is registered unmodified. -/
theorem C10_register_wrapper_witness :
    ModuleManager.patchedRegisterOrRemove Manager.defaultOptions (EventTarget.element 1)
      ⟨EventTarget.element 5, "click", .original⟩
      = [⟨EventTarget.element 5, "click", .original⟩] :=
  (C10_register_wrapper Manager.defaultOptions (EventTarget.element 1)
    ⟨EventTarget.element 5, "click", .original⟩).2
    (by simp [matchesKeyKind]) (by simp [matchesResizeKind]) (by simp [matchesFullscreenKind])

/-! ### Adapter state and option immutability (C9)

The mutable state an adapter instance and its patches ever write: the
option record is written once by `__setOptions` during construction; the
operations and installed wrappers write other fields only. -/

/-- The mutable state touched by the adapter after construction. -/
structure AdapterState where
  options : ManagerOptions
  canvasWidth : ℚ
  canvasHeight : ℚ
  specialCanvasRedirected : Bool
  focusInvokersAttached : Bool
  glCreateContextPatched : Bool
  jsEventsPatched : Bool
  moduleInstantiated : Bool
deriving DecidableEq

/-- The operations of the adapter that can run after construction, including
the installed wrappers: `_fixCanvasSizing` (invoked by the resize and
fullscreen-change wrappers) carries the bounding rectangle it reads and the
device pixel ratio; the abort wrapper disposes GL contexts and calls the
user's callback. -/
inductive AdapterOp
  | initOp
  | callMainOp (args : List String)
  | abortOp (what : Option String)
  | pauseMainLoopOp
  | resumeMainLoopOp
  | requestFullscreenOp
  | exitFullscreenOp
  | onResizeCanvasOp (resizeTarget : EventTarget)
  | registerHandlerOp (component : EventTarget) (eh : EventHandler)
  | fixCanvasSizingOp (rectWidth rectHeight dpr : ℚ)
  | fixCanvasViewportOp
  | abortHandlerOp (what : String)
deriving DecidableEq

/-- Effect of each operation on the adapter state, read off the source:
`_initializeModule` instantiates the module and applies `_patchModule`
(which flips the patch flags according to the options); `_fixCanvasSizing`
writes the canvas backing-store dimensions; every other operation forwards
or dispatches without writing adapter state.  No branch writes `options`. -/
def applyAdapterOp : AdapterOp → AdapterState → AdapterState
  | .initOp, s =>
    { s with
      moduleInstantiated := true
      specialCanvasRedirected := s.options.redirectCanvasRequests
      focusInvokersAttached := s.options.captureFocusOnComponent
      glCreateContextPatched := s.options.adjustViewportByDevicePixelRatio
      jsEventsPatched := true }
  | .fixCanvasSizingOp rectWidth rectHeight dpr, s =>
    { s with
      canvasWidth := rectWidth * dpr
      canvasHeight := rectHeight * dpr }
  | _, s => s

/-- Claim C9: the configuration record is immutable after construction — no
adapter operation, installed event-handler wrapper or abort wrapper ever
writes to the options record. -/
theorem C9_options_immutable (op : AdapterOp) (s : AdapterState) :
    (applyAdapterOp op s).options = s.options := by
  cases op <;> rfl
